import Mathlib

/-!
Verification of the Hogan-RO purchase-order API core logic.

The definitions below are shallow embeddings of the TypeScript source:
  - `lib/auth.ts`   — token generation/extraction, role/permission/spending gates
  - `routes/purchase-orders.ts` — create, status-transition routes and the
    transition table `validTransitions`
JavaScript strings stay `String`; `undefined`/nullable values become
`Option`; thrown errors become `Except String`; SQL tables become lists of
row structures and queries become list comprehensions over them.
-/

namespace HoganRO

/-- `lib/types.ts` `AuthenticatedUser`. The TS type annotates `role` with a
union type but at runtime it is a plain string coming from the JWT or the
database (routes also pass role literals outside the annotated union, such
as `'user'`), so it is embedded as `String`. `name` and `division_id` are
optional fields. -/
structure AuthenticatedUser where
  id : String
  sub : String
  email : String
  name : Option String
  role : String
  division_id : Option String
  spending_limit_cents : Int
deriving Repr, DecidableEq

/-! ### Status transition table (`routes/purchase-orders.ts`, lines 388-402) -/

/-- The `validTransitions` record of the PATCH `/:id/status` handler.
A JavaScript record lookup on a key outside the record yields `undefined`,
embedded as `none`. -/
def validTransitions (current : String) : Option (List String) :=
  if current = "draft" then some ["pending", "cancelled"]
  else if current = "pending" then some ["approved", "cancelled"]
  else if current = "approved" then some ["ordered", "cancelled"]
  else if current = "ordered" then some ["received", "cancelled"]
  else if current = "received" then some []
  else if current = "cancelled" then some []
  else none

/-- The transition check
`validTransitions[existingPO.current_status].includes(status)` of the
handler: `some true` when the transition is accepted, `some false` when the
lookup succeeds but membership fails, `none` when the current status is not
a key of the record (in JS the `.includes` call would throw there; the
route only reaches the check with a database-stored status). -/
def transitionAccepted (current requested : String) : Option Bool :=
  (validTransitions current).map (fun allowed => allowed.contains requested)

/-- The eight edges of the canonical transition table. -/
def canonicalEdges : List (String × String) :=
  [("draft", "pending"), ("draft", "cancelled"),
   ("pending", "approved"), ("pending", "cancelled"),
   ("approved", "ordered"), ("approved", "cancelled"),
   ("ordered", "received"), ("ordered", "cancelled")]

/-! ### Role gate (`lib/auth.ts` `requireRole`, lines 93-97) -/

/-- `requireRole(user, allowedRoles)`: throws unless the user's role is a
member of the allowed list. -/
def requireRole (user : AuthenticatedUser) (allowedRoles : List String) :
    Except String Unit :=
  if allowedRoles.contains user.role then
    Except.ok ()
  else
    Except.error ("Forbidden: Requires one of roles: " ++
      String.intercalate ", " allowedRoles)

/-! ### Spending-limit gate (`lib/auth.ts` `canCreatePurchaseOrder`, lines 154-163) -/

/-- `canCreatePurchaseOrder(user, totalCents)`: admins are exempt, everyone
else is limited by `spending_limit_cents` (non-strict comparison). -/
def canCreatePurchaseOrder (user : AuthenticatedUser) (totalCents : Int) : Bool :=
  if user.role = "admin" then
    true
  else
    totalCents ≤ user.spending_limit_cents

/-! ### JWT payload round trip (`lib/auth.ts` `generateToken`, lines 18-29,
and `extractUserFromRequest`, lines 56-79) -/

/-- The decoded JWT payload as a JavaScript object: every property read by
`extractUserFromRequest` may be absent (`undefined`), embedded as `none`. -/
structure DecodedToken where
  sub : Option String
  id : Option String
  email : Option String
  name : Option String
  role : Option String
  division_id : Option String
  spending_limit_cents : Option Int
deriving Repr, DecidableEq

/-- The payload object literal signed by `generateToken`: it carries
exactly `sub`, `id`, `email`, `role` and `division_id`; the `name` and
`spending_limit_cents` properties are never written. -/
def generateTokenPayload (user : AuthenticatedUser) : DecodedToken :=
  { sub := some user.sub
    id := some user.id
    email := some user.email
    role := some user.role
    division_id := user.division_id
    name := none
    spending_limit_cents := none }

/-- The principal object built by `extractUserFromRequest` from a decoded
payload. Its fields mirror the runtime object: properties copied from the
payload may be `undefined`, except `spending_limit_cents`, which the code
defaults with `decoded.spending_limit_cents || 0`. -/
structure ExtractedUser where
  id : Option String
  sub : Option String
  email : Option String
  name : Option String
  role : Option String
  division_id : Option String
  spending_limit_cents : Int
deriving Repr, DecidableEq

/-- The field assignments of `extractUserFromRequest` once the token has
been verified and decoded. -/
def extractUserFromDecoded (decoded : DecodedToken) : ExtractedUser :=
  { id := decoded.id
    sub := decoded.sub
    email := decoded.email
    name := decoded.name
    role := decoded.role
    division_id := decoded.division_id
    spending_limit_cents := decoded.spending_limit_cents.getD 0 }

/-! ### RBAC permission resolution (`lib/auth.ts` `getUserPermissions`,
`hasPermission`, `requirePermission`, lines 100-132) -/

/-- A row of the `users` table (the columns the permission query reads). -/
structure UserRow where
  id : String
  deleted_at : Option String
deriving Repr, DecidableEq

/-- A row of the `roles` table. Roles are soft-deletable
(`routes/roles.ts` sets `deleted_at`). -/
structure RoleRow where
  id : String
  deleted_at : Option String
deriving Repr, DecidableEq

/-- A row of the `user_roles` assignment table. -/
structure UserRoleRow where
  user_id : String
  role_id : String
  deleted_at : Option String
deriving Repr, DecidableEq

/-- A row of the `role_permissions` assignment table. -/
structure RolePermissionRow where
  role_id : String
  permission_id : String
  deleted_at : Option String
deriving Repr, DecidableEq

/-- A row of the `permissions` table. -/
structure PermissionRow where
  id : String
  name : String
  deleted_at : Option String
deriving Repr, DecidableEq

/-- The tables touched by the RBAC queries. -/
structure Database where
  users : List UserRow
  roles : List RoleRow
  user_roles : List UserRoleRow
  role_permissions : List RolePermissionRow
  permissions : List PermissionRow
deriving Repr, DecidableEq

/-- The SQL query of `getUserPermissions`:
`SELECT DISTINCT p.name FROM users u JOIN user_roles ur ON u.id =
ur.user_id JOIN role_permissions rp ON ur.role_id = rp.role_id JOIN
permissions p ON rp.permission_id = p.id WHERE u.id = userId AND
u.deleted_at IS NULL AND ur.deleted_at IS NULL AND rp.deleted_at IS NULL
AND p.deleted_at IS NULL`. Note that the `roles` table is not joined:
no condition on the role row itself is evaluated. -/
def getUserPermissionsQuery (db : Database) (userId : String) : List String :=
  (db.users.flatMap (fun u =>
    db.user_roles.flatMap (fun ur =>
      db.role_permissions.flatMap (fun rp =>
        db.permissions.filterMap (fun p =>
          if u.id = ur.user_id ∧ ur.role_id = rp.role_id ∧
              rp.permission_id = p.id ∧ u.id = userId ∧
              u.deleted_at = none ∧ ur.deleted_at = none ∧
              rp.deleted_at = none ∧ p.deleted_at = none
          then some p.name else none))))).dedup

/-- `getUserPermissions`: the query result, or — when the database call
throws — the empty list (the `catch` block logs and returns `[]`). The
database outcome is passed in explicitly. -/
def getUserPermissions (dbResult : Except String Database)
    (userId : String) : List String :=
  match dbResult with
  | Except.ok db => getUserPermissionsQuery db userId
  | Except.error _ => []

/-- `hasPermission(userId, permission)`. -/
def hasPermission (dbResult : Except String Database)
    (userId permission : String) : Bool :=
  (getUserPermissions dbResult userId).contains permission

/-- `requirePermission(userId, permission)`: throws when the permission is
not held. -/
def requirePermission (dbResult : Except String Database)
    (userId permission : String) : Except String Unit :=
  if hasPermission dbResult userId permission then
    Except.ok ()
  else
    Except.error ("Forbidden: Missing required permission: " ++ permission)

/-- Modelled from the spec: the resolution the spec describes, where the
role rows reached through the user-role assignments must themselves be
non-deleted (the code's query, by contrast, never joins `roles`). -/
def specResolvedPermissions (db : Database) (userId : String) : List String :=
  (db.users.flatMap (fun u =>
    db.user_roles.flatMap (fun ur =>
      db.roles.flatMap (fun r =>
        db.role_permissions.flatMap (fun rp =>
          db.permissions.filterMap (fun p =>
            if u.id = ur.user_id ∧ ur.role_id = r.id ∧ r.id = rp.role_id ∧
                rp.permission_id = p.id ∧ u.id = userId ∧
                u.deleted_at = none ∧ ur.deleted_at = none ∧
                r.deleted_at = none ∧ rp.deleted_at = none ∧
                p.deleted_at = none
            then some p.name else none)))))).dedup

/-- Role ids held by a user through non-deleted user-role assignments. -/
def heldRoleIds (db : Database) (userId : String) : List String :=
  db.user_roles.filterMap (fun ur =>
    if ur.user_id = userId ∧ ur.deleted_at = none
    then some ur.role_id else none)

/-- Permission names attached to a role id through non-deleted
role-permission assignments and non-deleted permission rows. -/
def rolePermissionNames (db : Database) (roleId : String) : List String :=
  db.role_permissions.flatMap (fun rp =>
    db.permissions.filterMap (fun p =>
      if rp.role_id = roleId ∧ rp.permission_id = p.id ∧
          rp.deleted_at = none ∧ p.deleted_at = none
      then some p.name else none))

/-- The six statuses of the canonical enumeration. -/
def sixStatuses : List String :=
  ["draft", "pending", "approved", "ordered", "received", "cancelled"]

/-- C1 (amended): the transition check accepts a pair (current, requested)
if and only if it is one of the 8 edges of the canonical table; every
other pair — self-transitions, exits from the terminal states `received`
and `cancelled`, and any unrecognized requested status — is rejected. -/
theorem transition_accepts_iff_canonical_edge
    (current requested : String) :
    transitionAccepted current requested = some true ↔
      (current, requested) ∈ canonicalEdges := by
  unfold transitionAccepted validTransitions canonicalEdges
  split_ifs with h1 h2 h3 h4 h5 h6 <;>
    simp_all [List.contains, Prod.ext_iff]

/-- C1 counterexample to the stated edge count: over the full 6×6 grid of
canonical statuses, the transition check accepts exactly 8 pairs, not 10. -/
theorem transition_edge_count_is_eight_not_ten :
    ((sixStatuses.flatMap (fun c => sixStatuses.map (fun r => (c, r)))).filter
        (fun p => transitionAccepted p.1 p.2 = some true)).length = 8 ∧
      ((sixStatuses.flatMap (fun c => sixStatuses.map (fun r => (c, r)))).filter
        (fun p => transitionAccepted p.1 p.2 = some true)).length ≠ 10 := by
  decide

/-- C2: `requireRole` succeeds if and only if the caller's role is
literally a member of the allowed list (exact membership, no hierarchy);
in particular a `manager` caller is denied against the set `{admin}`. -/
theorem requireRole_ok_iff_member
    (user : AuthenticatedUser) (allowedRoles : List String) :
    (requireRole user allowedRoles = Except.ok ()) ↔
      user.role ∈ allowedRoles := by
  unfold requireRole
  split_ifs with h
  · simp_all [List.contains]
  · simp_all [List.contains]

/-- C3: the spending-limit gate allows the purchase if and only if the
caller is an admin (unconditionally exempt) or the total does not exceed
the configured limit (non-strict, so the boundary amount is allowed). -/
theorem canCreatePurchaseOrder_iff
    (user : AuthenticatedUser) (totalCents : Int) :
    canCreatePurchaseOrder user totalCents = true ↔
      (user.role = "admin" ∨ totalCents ≤ user.spending_limit_cents) := by
  unfold canCreatePurchaseOrder
  split_ifs with h <;> simp_all

/-! ### Purchase-order creation (`routes/purchase-orders.ts` POST `/`,
lines 216-344) -/

/-- A row of the `suppliers` table (the columns the create route reads). -/
structure SupplierRow where
  id : String
  deleted_at : Option String
deriving Repr, DecidableEq

/-- A row of the `purchase_orders` table (the columns the create and
status routes read or write). -/
structure PORow where
  id : String
  po_number : String
  supplier_id : String
  status : String
  total_amount : Int
  deleted_at : Option String
deriving Repr, DecidableEq

/-- The tables touched by the purchase-order routes. -/
structure POStore where
  purchase_orders : List PORow
  suppliers : List SupplierRow
deriving Repr, DecidableEq

/-- A create request body (the fields the status logic depends on).
`status` is `none` when the request omits the field. -/
structure CreatePORequest where
  po_number : String
  supplier_id : String
  status : Option String
  total_amount : Int
deriving Repr, DecidableEq

/-- The error outcomes of the create route: Zod validation failure,
`'Purchase order number already exists'`, `'Supplier not found'`. All are
400 responses and insert nothing. -/
inductive CreateError where
  | validationError
  | poNumberExists
  | supplierNotFound
deriving Repr, DecidableEq

/-- The `status` rule of `createPurchaseOrderSchema`:
`z.enum(['draft', 'pending', 'approved', 'ordered', 'received',
'cancelled']).default('draft')` — an absent field becomes `'draft'`, a
present field must be one of the six values. -/
def parseCreateStatus (requested : Option String) : Except String String :=
  match requested with
  | none => Except.ok "draft"
  | some s =>
    if sixStatuses.contains s then Except.ok s
    else Except.error "Validation error"

/-- The POST `/` handler after auth: parse the body, reject a duplicate
non-deleted `po_number`, reject a missing non-deleted supplier, then
insert the row with the parsed status. The insert happens only on the
`ok` path, which returns the updated store and the new row. -/
def createPurchaseOrder (store : POStore) (req : CreatePORequest)
    (newId : String) : Except CreateError (POStore × PORow) :=
  match parseCreateStatus req.status with
  | Except.error _ => Except.error CreateError.validationError
  | Except.ok status =>
    if store.purchase_orders.any
        (fun po => po.po_number == req.po_number && po.deleted_at == none) then
      Except.error CreateError.poNumberExists
    else if store.suppliers.any
        (fun s => s.id == req.supplier_id && s.deleted_at == none) then
      let newRow : PORow :=
        { id := newId
          po_number := req.po_number
          supplier_id := req.supplier_id
          status := status
          total_amount := req.total_amount
          deleted_at := none }
      Except.ok
        ({ store with purchase_orders := store.purchase_orders ++ [newRow] },
          newRow)
    else
      Except.error CreateError.supplierNotFound

/-- A store holding one non-deleted supplier and no purchase orders. -/
def oneSupplierStore : POStore :=
  { purchase_orders := []
    suppliers := [{ id := "s1", deleted_at := none }] }

/-- A create request that explicitly asks for initial status `received`. -/
def receivedReq : CreatePORequest :=
  { po_number := "PO-1", supplier_id := "s1"
    status := some "received", total_amount := 100 }

/-- A database in which user `u1` holds role `r1` through a non-deleted
assignment, `r1` grants permission `pos:approve` through a non-deleted
assignment, the permission row is non-deleted — but the `r1` role row
itself is soft-deleted. -/
def roleDeletedDb : Database :=
  { users := [{ id := "u1", deleted_at := none }]
    roles := [{ id := "r1", deleted_at := some "2024-01-01" }]
    user_roles := [{ user_id := "u1", role_id := "r1", deleted_at := none }]
    role_permissions :=
      [{ role_id := "r1", permission_id := "perm1", deleted_at := none }]
    permissions :=
      [{ id := "perm1", name := "pos:approve", deleted_at := none }] }

/-- C4 counterexample: the code's resolution still returns the permissions
of a soft-deleted role, while the spec's resolution (role rows non-deleted)
returns nothing — the two differ on `roleDeletedDb`. -/
theorem deleted_role_still_grants_permissions :
    getUserPermissions (Except.ok roleDeletedDb) "u1" = ["pos:approve"] ∧
      specResolvedPermissions roleDeletedDb "u1" = [] := by
  decide

/-- C4 (amended): a permission is in the resolved set iff the user row is
present and non-deleted and some role held through a non-deleted user-role
assignment grants it through a non-deleted role-permission assignment and
a non-deleted permission row — the role row's own deletion flag is not
consulted; consequently `hasPermission` is false iff no held role grants
the permission that way. -/
theorem resolved_permissions_union_of_held_roles
    (db : Database) (userId p : String) :
    (p ∈ getUserPermissions (Except.ok db) userId ↔
      ((∃ u ∈ db.users, u.id = userId ∧ u.deleted_at = none) ∧
        ∃ r ∈ heldRoleIds db userId, p ∈ rolePermissionNames db r)) ∧
    (hasPermission (Except.ok db) userId p = false ↔
      ¬ ((∃ u ∈ db.users, u.id = userId ∧ u.deleted_at = none) ∧
        ∃ r ∈ heldRoleIds db userId, p ∈ rolePermissionNames db r)) := by
  have hmain : p ∈ getUserPermissions (Except.ok db) userId ↔
      ((∃ u ∈ db.users, u.id = userId ∧ u.deleted_at = none) ∧
        ∃ r ∈ heldRoleIds db userId, p ∈ rolePermissionNames db r) := by
    unfold getUserPermissions getUserPermissionsQuery heldRoleIds
      rolePermissionNames
    simp only [List.mem_dedup, List.mem_flatMap, List.mem_filterMap,
      Option.ite_none_right_eq_some, Option.some.injEq]
    constructor
    · rintro ⟨u, hu, ur, hur, rp, hrp, pm, hpm,
        ⟨e1, e2, e3, e4, d1, d2, d3, d4⟩, hname⟩
      refine ⟨⟨u, hu, e4, d1⟩, ur.role_id, ⟨ur, hur, ⟨?_, d2⟩, rfl⟩,
        rp, hrp, pm, hpm, ⟨e2.symm, e3, d3, d4⟩, hname⟩
      rw [← e1, e4]
    · rintro ⟨⟨u, hu, hid, hdel⟩, rid, ⟨ur, hur, ⟨huid, hudel⟩, hrid⟩,
        rp, hrp, pm, hpm, ⟨f1, f2, f3, f4⟩, hname⟩
      refine ⟨u, hu, ur, hur, rp, hrp, pm, hpm,
        ⟨?_, ?_, f2, hid, hdel, hudel, f3, f4⟩, hname⟩
      · rw [hid, huid]
      · rw [hrid, f1]
  refine ⟨hmain, ?_⟩
  rw [← hmain]
  unfold hasPermission
  simp [List.contains]

/-- C9: extracting a principal from the payload signed by `generateToken`
yields a zero spending limit and an absent name for every user, because
the payload omits both fields and extraction defaults the missing
spending limit to 0. -/
theorem token_round_trip_drops_name_and_limit (user : AuthenticatedUser) :
    (extractUserFromDecoded (generateTokenPayload user)).spending_limit_cents
        = 0 ∧
      (extractUserFromDecoded (generateTokenPayload user)).name = none :=
  ⟨rfl, rfl⟩

/-- C10: when the permission-resolution query throws, `getUserPermissions`
returns the empty list, so every `hasPermission` check is false and
`requirePermission` denies the request. -/
theorem permission_resolution_fails_closed (e userId p : String) :
    getUserPermissions (Except.error e) userId = [] ∧
      hasPermission (Except.error e) userId p = false ∧
      requirePermission (Except.error e) userId p =
        Except.error ("Forbidden: Missing required permission: " ++ p) :=
  ⟨rfl, rfl, rfl⟩

/-- C6 counterexample: the create route accepts `receivedReq` and persists
the new purchase order with status `received`, not `draft` — the schema
defaults the status to `draft` only when the request omits it. -/
theorem create_accepts_nondraft_initial_status :
    (createPurchaseOrder oneSupplierStore receivedReq "id1").map
        (fun r => r.2.status) = Except.ok "received" ∧
      ("received" : String) ≠ "draft" :=
  ⟨rfl, by decide⟩

/-- A status accepted by the schema is the request's status when present
and `draft` otherwise, and always one of the six enumeration values. -/
lemma parseCreateStatus_ok (req : Option String) (status : String)
    (hp : parseCreateStatus req = Except.ok status) :
    status = req.getD "draft" ∧ status ∈ sixStatuses := by
  cases req with
  | none =>
    injection hp with hp
    subst hp
    exact ⟨rfl, by decide⟩
  | some s =>
    by_cases hs : (sixStatuses.contains s) = true
    · have hc : parseCreateStatus (some s) = Except.ok s := by
        simp only [parseCreateStatus]
        rw [if_pos hs]
      rw [hc] at hp
      injection hp with hp
      subst hp
      exact ⟨rfl, by simpa [List.contains] using hs⟩
    · have hc : parseCreateStatus (some s) =
          Except.error "Validation error" := by
        simp only [parseCreateStatus]
        rw [if_neg hs]
      rw [hc] at hp
      injection hp

/-- C6 (amended): every purchase order accepted by the create operation is
persisted with the requested status when the request supplies one (any of
the six enumeration values), and with `draft` when the request omits the
field; a status outside the enumeration is rejected at validation. -/
theorem create_persists_requested_or_draft_status
    (store : POStore) (req : CreatePORequest) (newId : String)
    (res : POStore × PORow)
    (h : createPurchaseOrder store req newId = Except.ok res) :
    res.2.status = req.status.getD "draft" ∧ res.2.status ∈ sixStatuses := by
  cases hp : parseCreateStatus req.status with
  | error e =>
    have hc : createPurchaseOrder store req newId =
        Except.error CreateError.validationError := by
      unfold createPurchaseOrder
      rw [hp]
    rw [hc] at h
    injection h
  | ok status =>
    have hstep : createPurchaseOrder store req newId =
        (if (store.purchase_orders.any
              fun po => po.po_number == req.po_number &&
                po.deleted_at == none) = true
         then Except.error CreateError.poNumberExists
         else if (store.suppliers.any
              fun s => s.id == req.supplier_id && s.deleted_at == none) = true
         then Except.ok
            ({ purchase_orders := store.purchase_orders ++
                [{ id := newId, po_number := req.po_number,
                   supplier_id := req.supplier_id, status := status,
                   total_amount := req.total_amount, deleted_at := none }]
               suppliers := store.suppliers },
              { id := newId, po_number := req.po_number,
                supplier_id := req.supplier_id, status := status,
                total_amount := req.total_amount, deleted_at := none })
         else Except.error CreateError.supplierNotFound) := by
      unfold createPurchaseOrder
      rw [hp]
    rw [hstep] at h
    by_cases h1 : (store.purchase_orders.any
        fun po => po.po_number == req.po_number &&
          po.deleted_at == none) = true
    · rw [if_pos h1] at h
      injection h
    · rw [if_neg h1] at h
      by_cases h2 : (store.suppliers.any
          fun s => s.id == req.supplier_id && s.deleted_at == none) = true
      · rw [if_pos h2] at h
        injection h with h
        subst h
        exact parseCreateStatus_ok req.status status hp
      · rw [if_neg h2] at h
        injection h

/-- Witness for C6's amended theorem at a concrete accepted request that
omits the status field. -/
theorem create_persists_requested_or_draft_status_witness :
    (({ id := "id1", po_number := "PO-1", supplier_id := "s1",
        status := "draft", total_amount := 100,
        deleted_at := none } : PORow).status =
      (({ po_number := "PO-1", supplier_id := "s1", status := none,
          total_amount := 100 } : CreatePORequest).status.getD "draft")) ∧
    ({ id := "id1", po_number := "PO-1", supplier_id := "s1",
        status := "draft", total_amount := 100,
        deleted_at := none } : PORow).status ∈ sixStatuses :=
  create_persists_requested_or_draft_status oneSupplierStore
    { po_number := "PO-1", supplier_id := "s1", status := none,
      total_amount := 100 }
    "id1"
    ({ purchase_orders :=
        [{ id := "id1", po_number := "PO-1", supplier_id := "s1",
           status := "draft", total_amount := 100, deleted_at := none }]
       suppliers := [{ id := "s1", deleted_at := none }] },
      { id := "id1", po_number := "PO-1", supplier_id := "s1",
        status := "draft", total_amount := 100, deleted_at := none })
    rfl

/-- C7: when a non-deleted purchase order with the requested `po_number`
already exists and the request body is otherwise valid, the create route
rejects with the PO-number conflict error; no insert happens, because the
store only changes on the `ok` path of `createPurchaseOrder`. -/
theorem create_rejects_duplicate_po_number
    (store : POStore) (req : CreatePORequest) (newId : String)
    (hvalid : req.status = none ∨
      ∃ s, req.status = some s ∧ s ∈ sixStatuses)
    (hdup : ∃ po ∈ store.purchase_orders,
      po.po_number = req.po_number ∧ po.deleted_at = none) :
    createPurchaseOrder store req newId =
      Except.error CreateError.poNumberExists := by
  have hany : store.purchase_orders.any
      (fun po => po.po_number == req.po_number && po.deleted_at == none)
        = true := by
    rcases hdup with ⟨po, hmem, hnum, hdel⟩
    refine List.any_eq_true.mpr ⟨po, hmem, ?_⟩
    simp [hnum, hdel]
  unfold createPurchaseOrder
  rcases hvalid with hnone | ⟨s, hsome, hmem⟩
  · rw [hnone]
    simp only [parseCreateStatus]
    rw [if_pos hany]
  · have hc : sixStatuses.contains s = true := by
      simpa [List.contains] using hmem
    rw [hsome]
    simp [parseCreateStatus, hc, hany, hmem]

/-- A store already holding a non-deleted purchase order `PO-1`. -/
def dupStore : POStore :=
  { purchase_orders :=
      [{ id := "id1", po_number := "PO-1", supplier_id := "s1",
         status := "draft", total_amount := 100, deleted_at := none }]
    suppliers := [{ id := "s1", deleted_at := none }] }

/-- A second create request reusing the taken number `PO-1`. -/
def dupReq : CreatePORequest :=
  { po_number := "PO-1", supplier_id := "s1", status := none,
    total_amount := 7 }

/-- Witness for C7 at a concrete duplicate request. -/
theorem create_rejects_duplicate_po_number_witness :
    ((dupReq.status = none ∨
        ∃ s, dupReq.status = some s ∧ s ∈ sixStatuses) ∧
      (∃ po ∈ dupStore.purchase_orders,
        po.po_number = dupReq.po_number ∧ po.deleted_at = none)) ∧
      createPurchaseOrder dupStore dupReq "id2" =
        Except.error CreateError.poNumberExists :=
  ⟨⟨Or.inl rfl, by decide⟩,
    create_rejects_duplicate_po_number dupStore dupReq "id2"
      (Or.inl rfl) (by decide)⟩

/-! ### Error surfacing of the purchase-order routes (`lib/auth.ts`
`requireAuth` lines 82-97, error classes lines 192-206;
`routes/purchase-orders.ts` GET `/` lines 32-132) -/

/-- `requireAuth`: `extractUserFromRequest` returns `null` for a missing,
unparseable or expired token, and `requireAuth` then throws a plain
`Error` (not one of the status-coded error classes). -/
def requireAuthE (extracted : Option AuthenticatedUser) :
    Except String AuthenticatedUser :=
  match extracted with
  | some user => Except.ok user
  | none => Except.error "Unauthorized: Valid JWT token required"

/-- The `statusCode` of `class AuthenticationError` (`lib/auth.ts`). -/
def authenticationErrorStatus : Nat := 401

/-- The `statusCode` of `class AuthorizationError` (`lib/auth.ts`). -/
def authorizationErrorStatus : Nat := 403

/-- The `try` block of the GET `/` purchase-orders handler:
`requireAuth`, then `requireRole(user, ['admin', 'manager', 'user'])`,
then the database work and the 200 response (elided; the handler's auth
outcome depends only on the two gates). -/
def listPurchaseOrdersBody (extracted : Option AuthenticatedUser) :
    Except String Nat := do
  let user ← requireAuthE extracted
  let _ ← requireRole user ["admin", "manager", "user"]
  pure 200

/-- The full handler: the surrounding `catch` maps every thrown error —
authentication and authorization failures included — to
`reply.status(500)`. -/
def listPurchaseOrdersResponseCode
    (extracted : Option AuthenticatedUser) : Nat :=
  match listPurchaseOrdersBody extracted with
  | Except.ok code => code
  | Except.error _ => 500

/-- The principal that `POST /register` creates: role `basic`, which is
not in the purchase-order routes' allowed list. -/
def basicUser : AuthenticatedUser :=
  { id := "u9", sub := "u9", email := "basic@example.com", name := none
    role := "basic", division_id := none, spending_limit_cents := 0 }

/-- C5: an unauthenticated request (no token) and an authenticated caller
failing the role gate are both surfaced by the purchase-orders list route
as a generic 500 server error, not as the 401/403 client errors of the
`AuthenticationError` and `AuthorizationError` classes. -/
theorem auth_failures_surface_as_500 :
    listPurchaseOrdersResponseCode none = 500 ∧
      listPurchaseOrdersResponseCode (some basicUser) = 500 ∧
      listPurchaseOrdersResponseCode none ≠ authenticationErrorStatus ∧
      listPurchaseOrdersResponseCode (some basicUser) ≠
        authorizationErrorStatus := by
  refine ⟨rfl, rfl, ?_, ?_⟩ <;> decide

/-! ### Status-transition persistence (`routes/purchase-orders.ts`
PATCH `/:id/status`, lines 347-421) -/

/-- The existence check of the PATCH handler:
`SELECT id, status FROM purchase_orders WHERE id = X AND deleted_at IS
NULL`, then the transition validation against the observed status. On
success it returns the observed current status. -/
def patchStatusCheck (pos : List PORow) (id requested : String) :
    Except String String :=
  match (pos.filter
      (fun po => po.id == id && po.deleted_at == none)).head? with
  | none => Except.error "Purchase order not found"
  | some po =>
    match transitionAccepted po.status requested with
    | some true => Except.ok po.status
    | _ => Except.error ("Invalid status transition from " ++ po.status ++
        " to " ++ requested)

/-- The persistence step of the PATCH handler:
`UPDATE purchase_orders SET status = ... WHERE id = ${id}` — the row
predicate tests the id only, not the previously observed status. -/
def applyStatusUpdate (pos : List PORow) (id newStatus : String) :
    List PORow :=
  pos.map (fun po =>
    if po.id == id then { po with status := newStatus } else po)

/-- Modelled from the spec: the atomic conditional update the spec
requires, `set status = target where id = X and status = current` — the
row predicate tests both the id and the observed current status. -/
def applyStatusUpdateConditional (pos : List PORow)
    (id current newStatus : String) : List PORow :=
  pos.map (fun po =>
    if po.id == id && po.status == current
    then { po with status := newStatus } else po)

/-- The PATCH handler as its two database phases: the check runs against
the state the SELECT observed, the unconditional UPDATE runs against the
(possibly different) state current at write time. -/
def patchStatusTwoPhase (readState writeState : List PORow)
    (id requested : String) : Except String (List PORow) :=
  match patchStatusCheck readState id requested with
  | Except.error e => Except.error e
  | Except.ok _ => Except.ok (applyStatusUpdate writeState id requested)

/-- The purchase order `X` as the losing request's SELECT observed it. -/
def poDraft : PORow :=
  { id := "X", po_number := "PO-9", supplier_id := "s1",
    status := "draft", total_amount := 50, deleted_at := none }

/-- The same purchase order after a concurrent request completed the
legal transition `draft → cancelled`. -/
def poCancelled : PORow :=
  { id := "X", po_number := "PO-9", supplier_id := "s1",
    status := "cancelled", total_amount := 50, deleted_at := none }

/-- C8: the transition check of the losing request passes against the
observed `draft` state, and the unconditional UPDATE then overwrites the
terminal `cancelled` state with `pending` — a transition the table
rejects — whereas the spec's atomic conditional update, whose predicate
still requires `status = draft`, leaves the `cancelled` row untouched. -/
theorem nonatomic_update_overwrites_terminal_state :
    patchStatusTwoPhase [poDraft] [poCancelled] "X" "pending" =
        Except.ok [{ poCancelled with status := "pending" }] ∧
      transitionAccepted "cancelled" "pending" = some false ∧
      applyStatusUpdateConditional [poCancelled] "X" "draft" "pending" =
        [poCancelled] := by
  refine ⟨rfl, by decide, rfl⟩

end HoganRO
